import Mathlib

/-!
Verification of `src/zoo_esp32/config.h` (ESP32 Zoo Chatbot configuration
header). The header is purely declarative: preprocessor constants, two
`const int` and four `const char*` globals, a conditional camera pin map,
three `#warning` validation blocks and three logging macros. Each constant
below is a shallow embedding of the corresponding macro or global, keeping
the source name and value.
-/

namespace ZooConfig

-- ==================== SERVER CONFIGURATION ====================

def WEBSOCKET_PORT : Int := 8000

def YOLO_PORT : Int := 5000

-- ==================== HARDWARE PIN CONFIGURATION ====================

def SERVO_PIN : Int := 13

def PRESSURE_SENSOR_PIN : Int := 34

def I2S_MIC_WS : Int := 25

def I2S_MIC_SD : Int := 26

def I2S_MIC_SCK : Int := 27

def I2S_SPK_WS : Int := 32

def I2S_SPK_SD : Int := 33

def I2S_SPK_SCK : Int := 14

-- ==================== AUDIO CONFIGURATION ====================

def SAMPLE_RATE : Nat := 16000

def RECORDING_DURATION_MS : Nat := 5000

def AUDIO_BUFFER_SIZE : Nat := 4096

def AUDIO_CHUNK_SIZE : Nat := 1024

-- ==================== CAMERA CONFIGURATION ====================

def CAMERA_FPS : Nat := 10

/-- `#define CAMERA_INTERVAL_MS (1000 / CAMERA_FPS)`: C integer division of
positive ints is truncating division, i.e. `Nat` division here. -/
def CAMERA_INTERVAL_MS : Nat := 1000 / CAMERA_FPS

-- ==================== SYSTEM CONFIGURATION ====================

def DEBUG_SERIAL : Bool := true

def VERBOSE_LOGGING : Bool := false

-- Timeouts (milliseconds)

def WIFI_CONNECT_TIMEOUT : Nat := 20000

def WEBSOCKET_CONNECT_TIMEOUT : Nat := 10000

def STT_PROCESSING_TIMEOUT : Nat := 15000

def AI_RESPONSE_TIMEOUT : Nat := 30000

def HTTP_REQUEST_TIMEOUT : Nat := 5000

-- ==================== WEBSOCKET PATHS ====================

def AUDIO_WS_PATH : String := "/ws/audio"

def TTS_WS_PATH : String := "/ws/tts"

-- ==================== PERFORMANCE TUNING ====================

def AUDIO_RECORD_TASK_PRIORITY : Nat := 2

def AUDIO_PLAYBACK_TASK_PRIORITY : Nat := 2

def CAMERA_STREAM_TASK_PRIORITY : Nat := 1

def WEBSOCKET_TASK_PRIORITY : Nat := 1

def AUDIO_RECORD_TASK_STACK : Nat := 8192

def AUDIO_PLAYBACK_TASK_STACK : Nat := 16384

def CAMERA_STREAM_TASK_STACK : Nat := 16384

-- ==================== ADVANCED SETTINGS ====================

def AUDIO_STREAM_CHUNK_SIZE : Nat := 8192

def WEBSOCKET_RECONNECT_INTERVAL : Nat := 5000

def CAMERA_CAPTURE_TIMEOUT : Nat := 5000

def AUDIO_PLAYBACK_QUEUE_SIZE : Nat := 20

-- ==================== CAMERA PIN MAP ====================

/-- `#define CAMERA_MODEL_AI_THINKER` appears unconditionally at line 155,
so the macro is always defined. -/
def CAMERA_MODEL_AI_THINKER_defined : Bool := true

/-- The sixteen camera pin macros of the `#ifdef CAMERA_MODEL_AI_THINKER`
block (lines 158-176). -/
structure CameraPins where
  pwdn : Int
  rstpin : Int
  xclk : Int
  siod : Int
  sioc : Int
  y9 : Int
  y8 : Int
  y7 : Int
  y6 : Int
  y5 : Int
  y4 : Int
  y3 : Int
  y2 : Int
  vsync : Int
  href : Int
  pclk : Int
deriving DecidableEq, Repr

/-- The AI-Thinker pin values as written in the `#ifdef` block. -/
def aiThinkerPins : CameraPins :=
  { pwdn := 32, rstpin := -1, xclk := 0, siod := 26, sioc := 27,
    y9 := 35, y8 := 34, y7 := 39, y6 := 36, y5 := 21, y4 := 19,
    y3 := 18, y2 := 5, vsync := 25, href := 23, pclk := 22 }

/-- The camera pin macros exist only when the guard of the `#ifdef` block
holds; otherwise they are undefined. -/
def cameraPinMap : Option CameraPins :=
  if CAMERA_MODEL_AI_THINKER_defined then some aiThinkerPins else none

/-- The camera pins that connect to a physical GPIO, i.e. all sixteen
except `RESET_GPIO_NUM = -1` (unconnected). Empty when the pin map is not
selected. -/
def cameraExclusivePins : List Int :=
  match cameraPinMap with
  | some p => [p.pwdn, p.xclk, p.siod, p.sioc, p.y9, p.y8, p.y7, p.y6,
               p.y5, p.y4, p.y3, p.y2, p.vsync, p.href, p.pclk]
  | none => []

/-- Every GPIO number bound by config.h to a hardware function that needs
exclusive use of its pin: servo, pressure sensor, the three I2S microphone
pins, the three I2S speaker pins, and the connected camera pins. -/
def exclusiveUsePins : List Int :=
  [SERVO_PIN, PRESSURE_SENSOR_PIN,
   I2S_MIC_WS, I2S_MIC_SD, I2S_MIC_SCK,
   I2S_SPK_WS, I2S_SPK_SD, I2S_SPK_SCK] ++ cameraExclusivePins

-- ==================== VALIDATION DIRECTIVES ====================

/-- Kinds of preprocessor diagnostic directives. config.h uses only
`#warning`; `error` is included so that "compilation blocked" is expressible. -/
inductive DirectiveKind where
  | warning
  | error
deriving DecidableEq, Repr, BEq

/-- Condition of the first validation block (line 179):
`#if SAMPLE_RATE != 16000 && SAMPLE_RATE != 44100`. -/
def sampleRateWarnTriggered (sr : Nat) : Bool :=
  (sr != 16000) && (sr != 44100)

/-- Condition of the second validation block (line 183):
`#if CAMERA_FPS > 30`. -/
def cameraFpsWarnTriggered (fps : Nat) : Bool :=
  decide (30 < fps)

/-- Condition of the third validation block (line 187):
`#if RECORDING_DURATION_MS > 10000`. -/
def recordingDurationWarnTriggered (dur : Nat) : Bool :=
  decide (10000 < dur)

/-- The diagnostics the preprocessor emits from the three validation blocks
(lines 178-189), as a function of the substituted values of `SAMPLE_RATE`,
`CAMERA_FPS` and `RECORDING_DURATION_MS`. The source contains no `#error`
directive, so only `warning` diagnostics can appear. -/
def emittedDiagnostics (sr fps dur : Nat) : List (DirectiveKind × String) :=
  (if sampleRateWarnTriggered sr then
    [(DirectiveKind.warning,
      "Sample rate should be 16000 or 44100 for best compatibility")]
   else []) ++
  (if cameraFpsWarnTriggered fps then
    [(DirectiveKind.warning,
      "Camera FPS > 30 may cause performance issues")]
   else []) ++
  (if recordingDurationWarnTriggered dur then
    [(DirectiveKind.warning,
      "Recording duration > 10 seconds may cause memory issues")]
   else [])

/-- Compilation is blocked exactly when an `#error` diagnostic is emitted. -/
def compilationBlocked (sr fps dur : Nat) : Bool :=
  (emittedDiagnostics sr fps dur).any (fun d => d.1 == DirectiveKind.error)

-- ==================== LOGGING MACROS ====================

/-- `Serial.println(msg)`: emits one line on the serial console. The output
of a macro expansion is modelled as the list of lines printed. -/
def serialPrintln (msg : String) : List String := [msg]

/-- `#define LOG_INFO(msg) if(DEBUG_SERIAL) { Serial.println(msg); }`.
The flag macro is a config switch, so it is a parameter here. -/
def LOG_INFO (debugSerial : Bool) (msg : String) : List String :=
  if debugSerial then serialPrintln msg else []

/-- `#define LOG_DEBUG(msg) if(VERBOSE_LOGGING) { Serial.println(msg); }`. -/
def LOG_DEBUG (verboseLogging : Bool) (msg : String) : List String :=
  if verboseLogging then serialPrintln msg else []

/-- `#define LOG_ERROR(msg) Serial.println("❌ ERROR: " + String(msg))`.
The body mentions no flag, so the macro takes no flag parameter. -/
def LOG_ERROR (msg : String) : List String :=
  serialPrintln ("❌ ERROR: " ++ msg)

-- ==================== GLOBAL DECLARATIONS ====================

/-- C++ object types as used by the six top-level bindings: a base type
with its `const` qualifier, or a pointer with its own `const` qualifier. -/
inductive CppType where
  | base (tyName : String) (isConst : Bool)
  | ptr (pointee : CppType) (ptrConst : Bool)
deriving DecidableEq, Repr

/-- A top-level variable declaration of config.h. -/
structure GlobalDecl where
  declName : String
  ty : CppType
deriving DecidableEq, Repr

/-- `const char*`: pointer to const char; the `const` qualifies the pointee,
the pointer object itself carries no `const`. -/
def constCharPtr : CppType := CppType.ptr (CppType.base "char" true) false

/-- `const int`: a const-qualified int object. -/
def constIntTy : CppType := CppType.base "int" true

/-- The six top-level variable bindings of config.h, in source order
(lines 12-27). All other constants in the file are `#define` macros and
introduce no runtime object at all. -/
def configGlobalDecls : List GlobalDecl :=
  [⟨"WIFI_SSID", constCharPtr⟩,
   ⟨"WIFI_PASSWORD", constCharPtr⟩,
   ⟨"SERVER_HOST", constCharPtr⟩,
   ⟨"WEBSOCKET_PORT", constIntTy⟩,
   ⟨"YOLO_PORT", constIntTy⟩,
   ⟨"DEVICE_ID", constCharPtr⟩]

/-- A global object can be reassigned at runtime iff its own outermost type
is not `const`-qualified: `const int x` cannot be reassigned, while for
`const char* p` the `const` binds to the pointee and `p = q;` is legal. -/
def runtimeReassignable : CppType → Bool
  | CppType.base _ c => !c
  | CppType.ptr _ pc => !pc

/-- The stored or pointed-to value is `const` (immutable through this
binding). -/
def valueImmutable : CppType → Bool
  | CppType.base _ c => c
  | CppType.ptr p _ => valueImmutable p

end ZooConfig

-- ==================================================================
-- Theorems
-- ==================================================================

namespace ZooConfig

/-- Claim C1: the exclusive-use GPIO pins of config.h are NOT pairwise
distinct. The code binds single GPIO numbers to two exclusive hardware
functions each: GPIO 26 (`I2S_MIC_SD` and camera `SIOD_GPIO_NUM`), GPIO 25
(`I2S_MIC_WS` and `VSYNC_GPIO_NUM`), GPIO 27 (`I2S_MIC_SCK` and
`SIOC_GPIO_NUM`), GPIO 32 (`I2S_SPK_WS` and `PWDN_GPIO_NUM`), GPIO 34
(`PRESSURE_SENSOR_PIN` and `Y8_GPIO_NUM`); hence the pin list has
duplicates, contradicting the claimed invariant. -/
theorem c1_pin_conflicts :
    I2S_MIC_SD = 26 ∧ (26 : Int) ∈ cameraExclusivePins ∧
    I2S_MIC_WS = 25 ∧ (25 : Int) ∈ cameraExclusivePins ∧
    I2S_MIC_SCK = 27 ∧ (27 : Int) ∈ cameraExclusivePins ∧
    I2S_SPK_WS = 32 ∧ (32 : Int) ∈ cameraExclusivePins ∧
    PRESSURE_SENSOR_PIN = 34 ∧ (34 : Int) ∈ cameraExclusivePins ∧
    ¬ exclusiveUsePins.Nodup := by
  decide

/-- Claim C2 counterexample: even in the configuration where both enabling
flags (`DEBUG_SERIAL`, `VERBOSE_LOGGING`) are false — which silences
`LOG_INFO` and `LOG_DEBUG` — `LOG_ERROR` still prints. So `LOG_ERROR` is
not "print if flag enabled": no flag gates it. -/
theorem c2_log_error_unconditional :
    LOG_INFO false "init failed" = [] ∧
    LOG_DEBUG false "init failed" = [] ∧
    LOG_ERROR "init failed" = ["❌ ERROR: init failed"] := by
  decide

/-- Claim C2, amended: `LOG_INFO(msg)` prints iff `DEBUG_SERIAL` is true and
`LOG_DEBUG(msg)` prints iff `VERBOSE_LOGGING` is true, but `LOG_ERROR(msg)`
prints unconditionally (one line, prefixed `❌ ERROR: `), regardless of any
enabling flag. -/
theorem c2_logging_macros (ds vl : Bool) (msg : String) :
    (LOG_INFO ds msg ≠ [] ↔ ds = true) ∧
    (LOG_DEBUG vl msg ≠ [] ↔ vl = true) ∧
    LOG_ERROR msg = ["❌ ERROR: " ++ msg] := by
  cases ds <;> cases vl <;>
    simp [LOG_INFO, LOG_DEBUG, LOG_ERROR, serialPrintln]

/-- Claim C3 counterexample: `WIFI_SSID` is declared `const char*`, i.e. a
non-const pointer to const char — the pointer object itself can be
reassigned at runtime (`WIFI_SSID = "other";` is legal C++), so not every
top-level binding is an immutable constant. -/
theorem c3_wifi_ssid_reassignable :
    GlobalDecl.mk "WIFI_SSID" constCharPtr ∈ configGlobalDecls ∧
    runtimeReassignable constCharPtr = true := by
  decide

/-- Claim C3, amended: the `const int` bindings (`WEBSOCKET_PORT`,
`YOLO_PORT`) are immutable, and every binding makes the stored or
pointed-to value immutable, but the four `const char*` bindings
(`WIFI_SSID`, `WIFI_PASSWORD`, `SERVER_HOST`, `DEVICE_ID`) declare mutable
pointer objects that can be reassigned at runtime. -/
theorem c3_global_decl_mutability :
    (configGlobalDecls.filter (fun d => runtimeReassignable d.ty)).map
        GlobalDecl.declName
      = ["WIFI_SSID", "WIFI_PASSWORD", "SERVER_HOST", "DEVICE_ID"] ∧
    configGlobalDecls.all (fun d => valueImmutable d.ty) = true := by
  decide

/-- Claim C4: for every substitution of the three configuration values, the
validation blocks emit only `#warning` diagnostics (never more than three),
compilation is never blocked (no `#error` directive exists), each of the
three warnings is emitted exactly when its condition holds, and all three
appear together exactly when all three conditions hold. -/
theorem c4_warnings_advisory (sr fps dur : Nat) :
    (emittedDiagnostics sr fps dur).all (fun d => d.1 == DirectiveKind.warning)
      = true ∧
    compilationBlocked sr fps dur = false ∧
    (emittedDiagnostics sr fps dur).length ≤ 3 ∧
    ((DirectiveKind.warning,
        "Sample rate should be 16000 or 44100 for best compatibility")
        ∈ emittedDiagnostics sr fps dur
      ↔ sampleRateWarnTriggered sr = true) ∧
    ((DirectiveKind.warning, "Camera FPS > 30 may cause performance issues")
        ∈ emittedDiagnostics sr fps dur
      ↔ cameraFpsWarnTriggered fps = true) ∧
    ((DirectiveKind.warning,
        "Recording duration > 10 seconds may cause memory issues")
        ∈ emittedDiagnostics sr fps dur
      ↔ recordingDurationWarnTriggered dur = true) ∧
    ((emittedDiagnostics sr fps dur).length = 3
      ↔ sampleRateWarnTriggered sr = true ∧ cameraFpsWarnTriggered fps = true
          ∧ recordingDurationWarnTriggered dur = true) := by
  cases h1 : sampleRateWarnTriggered sr <;>
    cases h2 : cameraFpsWarnTriggered fps <;>
      cases h3 : recordingDurationWarnTriggered dur <;>
        simp [emittedDiagnostics, compilationBlocked, h1, h2, h3] <;> decide

/-- Claim C5: substituting `SAMPLE_RATE = 22050` triggers the sample-rate
warning, `CAMERA_FPS = 45` triggers the FPS warning, any
`RECORDING_DURATION_MS > 10000` triggers the duration warning, and none of
the three conditions holds under the configured values (16000, 10, 5000). -/
theorem c5_warning_conditions :
    sampleRateWarnTriggered 22050 = true ∧
    cameraFpsWarnTriggered 45 = true ∧
    (∀ dur : Nat, 10000 < dur → recordingDurationWarnTriggered dur = true) ∧
    sampleRateWarnTriggered SAMPLE_RATE = false ∧
    cameraFpsWarnTriggered CAMERA_FPS = false ∧
    recordingDurationWarnTriggered RECORDING_DURATION_MS = false := by
  refine ⟨by decide, by decide, ?_, by decide, by decide, by decide⟩
  intro dur h
  simpa [recordingDurationWarnTriggered] using h

/-- Claim C5 witness: the universally quantified duration conjunct applied
at the concrete value 10001. -/
theorem c5_warning_conditions_witness :
    10000 < 10001 ∧ recordingDurationWarnTriggered 10001 = true :=
  ⟨by decide, c5_warning_conditions.2.2.1 10001 (by decide)⟩

/-- Claim C6: every timeout constant and every buffer-size constant of
config.h is strictly positive. -/
theorem c6_constants_positive :
    0 < WIFI_CONNECT_TIMEOUT ∧ 0 < WEBSOCKET_CONNECT_TIMEOUT ∧
    0 < STT_PROCESSING_TIMEOUT ∧ 0 < AI_RESPONSE_TIMEOUT ∧
    0 < HTTP_REQUEST_TIMEOUT ∧ 0 < WEBSOCKET_RECONNECT_INTERVAL ∧
    0 < CAMERA_CAPTURE_TIMEOUT ∧ 0 < AUDIO_BUFFER_SIZE ∧
    0 < AUDIO_CHUNK_SIZE ∧ 0 < AUDIO_STREAM_CHUNK_SIZE ∧
    0 < AUDIO_RECORD_TASK_STACK ∧ 0 < AUDIO_PLAYBACK_TASK_STACK ∧
    0 < CAMERA_STREAM_TASK_STACK ∧ 0 < AUDIO_PLAYBACK_QUEUE_SIZE := by
  decide

/-- Claim C7: the YOLO inference port (5000) differs from the chatbot
WebSocket port (8000), and the two WebSocket path suffixes are distinct and
non-empty. -/
theorem c7_endpoint_separation :
    YOLO_PORT = 5000 ∧ WEBSOCKET_PORT = 8000 ∧
    YOLO_PORT ≠ WEBSOCKET_PORT ∧
    AUDIO_WS_PATH = "/ws/audio" ∧ TTS_WS_PATH = "/ws/tts" ∧
    AUDIO_WS_PATH ≠ TTS_WS_PATH ∧
    AUDIO_WS_PATH ≠ "" ∧ TTS_WS_PATH ≠ "" := by
  decide

/-- Claim C8: `CAMERA_MODEL_AI_THINKER` is defined unconditionally, so the
`#ifdef` guard holds and the sixteen camera pin macros are defined with the
AI-Thinker values. -/
theorem c8_camera_pin_map :
    CAMERA_MODEL_AI_THINKER_defined = true ∧
    cameraPinMap = some
      { pwdn := 32, rstpin := -1, xclk := 0, siod := 26, sioc := 27,
        y9 := 35, y8 := 34, y7 := 39, y6 := 36, y5 := 21, y4 := 19,
        y3 := 18, y2 := 5, vsync := 25, href := 23, pclk := 22 } := by
  decide

/-- Claim C9: with the configured `CAMERA_FPS = 10` the integer division is
well-defined, `CAMERA_INTERVAL_MS = 1000 / CAMERA_FPS` evaluates to exactly
100, and `CAMERA_INTERVAL_MS * CAMERA_FPS = 1000`. -/
theorem c9_camera_interval :
    0 < CAMERA_FPS ∧ CAMERA_INTERVAL_MS = 100 ∧
    CAMERA_INTERVAL_MS * CAMERA_FPS = 1000 := by
  decide

/-- Claim C10: both audio task priorities (2) are strictly greater than
both the camera-streaming and WebSocket task priorities (1). -/
theorem c10_task_priorities :
    AUDIO_RECORD_TASK_PRIORITY = 2 ∧ AUDIO_PLAYBACK_TASK_PRIORITY = 2 ∧
    CAMERA_STREAM_TASK_PRIORITY = 1 ∧ WEBSOCKET_TASK_PRIORITY = 1 ∧
    CAMERA_STREAM_TASK_PRIORITY < AUDIO_RECORD_TASK_PRIORITY ∧
    WEBSOCKET_TASK_PRIORITY < AUDIO_RECORD_TASK_PRIORITY ∧
    CAMERA_STREAM_TASK_PRIORITY < AUDIO_PLAYBACK_TASK_PRIORITY ∧
    WEBSOCKET_TASK_PRIORITY < AUDIO_PLAYBACK_TASK_PRIORITY := by
  decide

end ZooConfig
